import Mathlib

/-!
# selinux-policy-helper-operator: the pod reconciler (hash variant)

A shallow embedding of `pkg/controller/pod/pod_controller.go`.

* Kubernetes objects are records holding the fields the reconciler reads or writes.
* A Go `map[string]string` that may be `nil` is an `Option` of an association list:
  `none` is the nil map, `some []` the empty non-nil map.
* A Go `error` is an `Option APIError`, `none` being `nil`.
* The cluster client is a record of response functions over an abstract cluster state;
  every handler returns the final state, the gateway calls it issued (in order) and how it
  ended (a returned error value, or a runtime panic).
* `crypto/sha1` is a library: the digest function is a parameter of the embedding.
-/

namespace SelinuxPolicyHelper

/-! ## Data model -/

/-- Go map with string keys and values; `none` is the nil map. -/
abbrev GoMap := Option (List (String × String))

/-- The two-valued lookup `_, ok := m[k]`; a nil map has no key. -/
def GoMap.hasKey (m : GoMap) (k : String) : Bool :=
  match m with
  | none => false
  | some kvs => kvs.any (fun kv => kv.1 == k)

/-- The lookup `m[k]` with its presence bit dropped. -/
def GoMap.lookup (m : GoMap) (k : String) : Option String :=
  match m with
  | none => none
  | some kvs => (kvs.find? (fun kv => kv.1 == k)).map (fun kv => kv.2)

/-- The assignment `m[k] = v` on the entries of a non-nil map. -/
def setEntry (kvs : List (String × String)) (k v : String) : List (String × String) :=
  match kvs with
  | [] => [(k, v)]
  | kv :: rest => if kv.1 == k then (k, v) :: rest else kv :: setEntry rest k v

/-- Kubernetes `types.NamespacedName`. -/
structure NamespacedName where
  Namespace : String
  Name : String
deriving DecidableEq, Repr

/-- The method `NamespacedName.String`: namespace, the separator `/`, name. -/
def NamespacedName.String (n : NamespacedName) : String :=
  n.Namespace ++ "/" ++ n.Name

structure TypeMeta where
  Kind : String
  APIVersion : String
deriving DecidableEq, Repr

structure ObjectMeta where
  Name : String
  Namespace : String
  Annotations : GoMap
deriving DecidableEq, Repr

structure VolumeMount where
  Name : String
  MountPath : String
deriving DecidableEq, Repr

structure SecurityContext where
  Privileged : Option Bool
deriving DecidableEq, Repr

structure Container where
  Name : String
  Image : String
  Command : List String
  Args : List String
  SecurityContext : Option SecurityContext
  VolumeMounts : List VolumeMount
deriving DecidableEq, Repr

structure HostPathVolumeSource where
  Path : String
  Type_ : Option String
deriving DecidableEq, Repr

structure Volume where
  Name : String
  HostPath : Option HostPathVolumeSource
deriving DecidableEq, Repr

structure PodSpec where
  Containers : List Container
  NodeName : String
  RestartPolicy : String
  ServiceAccountName : String
  Volumes : List Volume
deriving DecidableEq, Repr

structure PodStatus where
  Phase : String
deriving DecidableEq, Repr

structure Pod where
  TypeMeta : TypeMeta
  ObjectMeta : ObjectMeta
  Spec : PodSpec
  Status : PodStatus
deriving DecidableEq, Repr

structure Namespace where
  ObjectMeta : ObjectMeta
deriving DecidableEq, Repr

/-- The zero value `corev1.Pod{}`. -/
def Pod.zero : Pod :=
  { TypeMeta := { Kind := "", APIVersion := "" },
    ObjectMeta := { Name := "", Namespace := "", Annotations := none },
    Spec := { Containers := [], NodeName := "", RestartPolicy := "",
              ServiceAccountName := "", Volumes := [] },
    Status := { Phase := "" } }

/-- Deep copy of a pod: an equal value (a nil map stays nil). -/
def Pod.DeepCopy (p : Pod) : Pod := p

/-- The identity under which the cluster stores a pod. -/
def Pod.key (p : Pod) : NamespacedName :=
  { Namespace := p.ObjectMeta.Namespace, Name := p.ObjectMeta.Name }

/-! Constants of `k8s.io/api/core/v1`. -/

def PodPending : String := "Pending"
def PodRunning : String := "Running"
def PodSucceeded : String := "Succeeded"
def PodFailed : String := "Failed"
def PodUnknown : String := "Unknown"
def RestartPolicyNever : String := "Never"
def HostPathDirectory : String := "Directory"
def HostPathFile : String := "File"

/-! Package-level variables of the controller. -/

def trueVal : Bool := true
def hostPathDir : String := HostPathDirectory
def hostPathFile : String := HostPathFile
def operatorNamespace : String := "openshift-selinux-policy-helper-operator"

/-! ## Errors -/

/-- The reason carried by a Kubernetes status error. -/
inductive StatusReason where
  | NotFound
  | AlreadyExists
  | Conflict
  | Other
deriving DecidableEq, Repr

/-- A non-nil error value returned by the cluster client. -/
structure APIError where
  reason : StatusReason
  message : String
deriving DecidableEq, Repr

/-- The test `errors.IsNotFound`; false on a nil error. -/
def IsNotFound (err : Option APIError) : Bool :=
  match err with
  | none => false
  | some e => e.reason == StatusReason.NotFound

/-- The test `errors.IsAlreadyExists`; false on a nil error. -/
def IsAlreadyExists (err : Option APIError) : Bool :=
  match err with
  | none => false
  | some e => e.reason == StatusReason.AlreadyExists

/-- Source lines 304-310. -/
def ignoreNotFound (err : Option APIError) : Option APIError :=
  if IsNotFound err then none else err

/-! ## Pure helpers of the controller -/

/-- Formatting one byte with the verb `%x`: two lower-case hexadecimal digits. -/
def hexByte (b : Nat) : List Char :=
  [Nat.digitChar (b / 16 % 16), Nat.digitChar (b % 16)]

/-- Formatting a byte slice with the verb `%x`. -/
def hexEncode (bs : List Nat) : String :=
  String.mk (bs.flatMap hexByte)

/-- Source lines 197-201. The argument `sum` is the digest the hasher returns for the
string written to it. -/
def getSelinuxPodName (sum : String → List Nat) (targetPodName targetPodNamespace : String) :
    String :=
  "selinux-k8s-" ++ hexEncode (sum (targetPodName ++ "-" ++ targetPodNamespace))

/-- Source lines 186-195. -/
def isPolicyHelperPod (pod : Pod) : Bool :=
  if pod.ObjectMeta.Annotations = none then false
  else if pod.ObjectMeta.Annotations.hasKey "owned-by-selinux-policy-helper" then true
  else false

/-- Source lines 165-184. -/
def shouldPodBeSkipped (pod : Pod) (ns : Namespace) : Bool :=
  let nsHasKey := ns.ObjectMeta.Annotations.hasKey "generate-selinux-policy"
  let podHasKey := pod.ObjectMeta.Annotations.hasKey "generate-selinux-policy"
  if !nsHasKey && !podHasKey then true
  else if pod.Status.Phase != PodRunning then true
  else if pod.ObjectMeta.Annotations.hasKey "selinux-policy" then true
  else false

/-- Source lines 203-302. -/
def newSelinuxPolicyMakerPod (sum : String → List Nat)
    (targetPodName targetPodNamespace targetNodeName : String) : Pod :=
  { TypeMeta := { Kind := "Pod", APIVersion := "v1" },
    ObjectMeta :=
      { Name := getSelinuxPodName sum targetPodName targetPodNamespace,
        Namespace := operatorNamespace,
        Annotations := some [("owned-by-selinux-policy-helper", "")] },
    Spec :=
      { Containers :=
          [{ Name := "selinux-k8s",
             Image := "quay.io/jaosorior/selinux-k8s:latest",
             Command := ["selinuxk8s"],
             Args := ["--name", targetPodName, "--namespace", targetPodNamespace],
             SecurityContext := some { Privileged := some trueVal },
             VolumeMounts :=
               [{ Name := "fsselinux", MountPath := "/sys/fs/selinux" },
                { Name := "etcselinux", MountPath := "/etc/selinux" },
                { Name := "varlibselinux", MountPath := "/var/lib/selinux" },
                { Name := "varruncrio", MountPath := "/var/run/crio" },
                { Name := "crictlyaml", MountPath := "/etc/crictl.yaml" }] }],
        NodeName := targetNodeName,
        RestartPolicy := RestartPolicyNever,
        ServiceAccountName := "selinux-policy-helper-operator",
        Volumes :=
          [{ Name := "fsselinux",
             HostPath := some { Path := "/sys/fs/selinux", Type_ := some hostPathDir } },
           { Name := "etcselinux",
             HostPath := some { Path := "/etc/selinux", Type_ := some hostPathDir } },
           { Name := "varlibselinux",
             HostPath := some { Path := "/var/lib/selinux", Type_ := some hostPathDir } },
           { Name := "varruncrio",
             HostPath := some { Path := "/var/run/crio", Type_ := some hostPathDir } },
           { Name := "crictlyaml",
             HostPath := some { Path := "/etc/crictl.yaml", Type_ := some hostPathFile } }] },
    Status := { Phase := "" } }

/-! ## The cluster client and the trace of a handler -/

/-- One call to the cluster client, with the key or object passed to it. -/
inductive Call where
  | GetPod (key : NamespacedName)
  | GetNamespace (key : NamespacedName)
  | Create (obj : Pod)
  | Update (obj : Pod)
  | Delete (obj : Pod)
deriving DecidableEq, Repr

/-- The calls that write to the cluster. -/
def Call.isWrite (c : Call) : Bool :=
  match c with
  | Call.GetPod _ => false
  | Call.GetNamespace _ => false
  | Call.Create _ => true
  | Call.Update _ => true
  | Call.Delete _ => true

def Call.isCreate (c : Call) : Bool :=
  match c with
  | Call.Create _ => true
  | _ => false

def Call.isUpdate (c : Call) : Bool :=
  match c with
  | Call.Update _ => true
  | _ => false

/-- How a handler ends: it returns its error value (`none` is a nil error), or the Go
runtime panics. -/
inductive Outcome where
  | returned (err : Option APIError)
  | panicked (msg : String)
deriving DecidableEq, Repr

/-- The interface `client.Client` over a cluster state `σ`: every call answers from the
current state and yields the next one. -/
structure Client (σ : Type) where
  GetPod : σ → NamespacedName → σ × Except APIError Pod
  GetNamespace : σ → NamespacedName → σ × Except APIError Namespace
  Create : σ → Pod → σ × Option APIError
  Update : σ → Pod → σ × Option APIError
  Delete : σ → Pod → σ × Option APIError

/-- What one invocation of a handler did. -/
structure Run (σ : Type) where
  state : σ
  calls : List Call
  outcome : Outcome

/-- The run of a handler invoked after the calls `pre` were already issued. -/
def Run.after {σ : Type} (pre : List Call) (r : Run σ) : Run σ :=
  { r with calls := pre ++ r.calls }

/-! ## The reconciler -/

/-- Source lines 122-135. -/
def handlePolicyHelperPod {σ : Type} (c : Client σ) (s : σ) (pod : Pod) : Run σ :=
  if pod.Status.Phase = PodSucceeded then
    match c.Delete s pod with
    | (s1, some err) =>
      { state := s1, calls := [Call.Delete pod],
        outcome := Outcome.returned (ignoreNotFound (some err)) }
    | (s1, none) =>
      { state := s1, calls := [Call.Delete pod], outcome := Outcome.returned none }
  else if pod.Status.Phase = PodFailed then
    { state := s, calls := [], outcome := Outcome.returned none }
  else
    { state := s, calls := [], outcome := Outcome.returned none }

/-- The local `selinuxPodNSName` of line 142: the identity of the companion of `pod`. -/
def selinuxPodNSName (sum : String → List Nat) (pod : Pod) : NamespacedName :=
  { Name := getSelinuxPodName sum pod.ObjectMeta.Name pod.ObjectMeta.Namespace,
    Namespace := operatorNamespace }

/-- Source lines 137-163. In the branch where the companion is not found, the error of
line 152 is the one bound by the `Get` of line 144: the error of the `Create` is scoped to
the inner `if`. -/
def handlePodThatNeedsPolicy {σ : Type} (sum : String → List Nat) (c : Client σ) (s : σ)
    (pod : Pod) : Run σ :=
  let selinuxPodNSName : NamespacedName := selinuxPodNSName sum pod
  match c.GetPod s selinuxPodNSName with
  | (s1, Except.error err) =>
    if IsNotFound (some err) then
      let selinuxPod :=
        newSelinuxPolicyMakerPod sum pod.ObjectMeta.Name pod.ObjectMeta.Namespace
          pod.Spec.NodeName
      match c.Create s1 selinuxPod with
      | (s2, some err2) =>
        { state := s2, calls := [Call.GetPod selinuxPodNSName, Call.Create selinuxPod],
          outcome := Outcome.returned (some err2) }
      | (s2, none) =>
        { state := s2, calls := [Call.GetPod selinuxPodNSName, Call.Create selinuxPod],
          outcome := Outcome.returned (some err) }
    else
      { state := s1, calls := [Call.GetPod selinuxPodNSName],
        outcome := Outcome.returned (some err) }
  | (s1, Except.ok _) =>
    let podCopy := pod.DeepCopy
    match podCopy.ObjectMeta.Annotations with
    | none =>
      { state := s1, calls := [Call.GetPod selinuxPodNSName],
        outcome := Outcome.panicked "assignment to entry in nil map" }
    | some kvs =>
      let podCopy : Pod :=
        { podCopy with
          ObjectMeta :=
            { podCopy.ObjectMeta with
              Annotations := some (setEntry kvs "selinux-policy" selinuxPodNSName.String) } }
      match c.Update s1 podCopy with
      | (s2, some err) =>
        { state := s2, calls := [Call.GetPod selinuxPodNSName, Call.Update podCopy],
          outcome := Outcome.returned (some err) }
      | (s2, none) =>
        { state := s2, calls := [Call.GetPod selinuxPodNSName, Call.Update podCopy],
          outcome := Outcome.returned none }

/-- Source lines 94-120. -/
def Reconcile {σ : Type} (sum : String → List Nat) (c : Client σ) (s : σ)
    (request : NamespacedName) : Run σ :=
  match c.GetPod s request with
  | (s1, Except.error err) =>
    { state := s1, calls := [Call.GetPod request],
      outcome := Outcome.returned (ignoreNotFound (some err)) }
  | (s1, Except.ok pod) =>
    if isPolicyHelperPod pod then
      (handlePolicyHelperPod c s1 pod).after [Call.GetPod request]
    else
      let podNS : NamespacedName := { Name := pod.ObjectMeta.Namespace, Namespace := "" }
      match c.GetNamespace s1 podNS with
      | (s2, Except.error err) =>
        { state := s2, calls := [Call.GetPod request, Call.GetNamespace podNS],
          outcome := Outcome.returned (ignoreNotFound (some err)) }
      | (s2, Except.ok ns) =>
        if shouldPodBeSkipped pod ns then
          { state := s2, calls := [Call.GetPod request, Call.GetNamespace podNS],
            outcome := Outcome.returned none }
        else
          (handlePodThatNeedsPolicy sum c s2 pod).after
            [Call.GetPod request, Call.GetNamespace podNS]

/-! ## The admission filter, as the reconciler computes it and as the specification
words it -/

inductive Classification where
  | Ignore
  | IsCompanion
  | NeedsPolicy
deriving DecidableEq, Repr

/-- The branch `Reconcile` takes (lines 102-119) for a fetched pod and its fetched
namespace: the helper check first, then the skip check. -/
def reconcileBranch (pod : Pod) (ns : Namespace) : Classification :=
  if isPolicyHelperPod pod then Classification.IsCompanion
  else if shouldPodBeSkipped pod ns then Classification.Ignore
  else Classification.NeedsPolicy

/-- An object carries a marker when the marker is one of the keys of its annotation set
(an absent set has no keys). -/
def carries (om : ObjectMeta) (marker : String) : Bool :=
  decide (marker ∈ (om.Annotations.getD []).map Prod.fst)

/-- The ordered rules 1-5 of the admission filter, in the words of the specification. -/
def classifySpec (pod : Pod) (ns : Namespace) : Classification :=
  if carries pod.ObjectMeta "owned-by-selinux-policy-helper" then
    Classification.IsCompanion
  else if !(carries pod.ObjectMeta "generate-selinux-policy"
      || carries ns.ObjectMeta "generate-selinux-policy") then
    Classification.Ignore
  else if pod.Status.Phase ≠ "Running" then
    Classification.Ignore
  else if carries pod.ObjectMeta "selinux-policy" then
    Classification.Ignore
  else
    Classification.NeedsPolicy

/-! ## Two cluster gateways

The gateway is an external collaborator. `scriptedClient` answers every call from a fixed
table, so it can play any single response, races included; `storeClient` is a reliable
keyed store without spurious failures. -/

/-- A fixed table of responses. -/
structure Script where
  getPod : NamespacedName → Except APIError Pod
  getNamespace : NamespacedName → Except APIError Namespace
  create : Pod → Option APIError
  update : Pod → Option APIError
  delete : Pod → Option APIError

/-- The client that answers from a script and keeps no state. -/
def scriptedClient (sc : Script) : Client Unit :=
  { GetPod := fun s key => (s, sc.getPod key),
    GetNamespace := fun s key => (s, sc.getNamespace key),
    Create := fun s obj => (s, sc.create obj),
    Update := fun s obj => (s, sc.update obj),
    Delete := fun s obj => (s, sc.delete obj) }

/-- The content of a keyed store: pods by namespace and name, namespaces by name. -/
structure Store where
  pods : List Pod
  namespaces : List Namespace
deriving DecidableEq, Repr

def Store.findPod (s : Store) (key : NamespacedName) : Option Pod :=
  s.pods.find? (fun p => decide (p.key = key))

def Store.findNamespace (s : Store) (name : String) : Option Namespace :=
  s.namespaces.find? (fun n => decide (n.ObjectMeta.Name = name))

def notFoundError : APIError := { reason := StatusReason.NotFound, message := "not found" }

def alreadyExistsError : APIError :=
  { reason := StatusReason.AlreadyExists, message := "already exists" }

def conflictError : APIError :=
  { reason := StatusReason.Conflict, message := "the object has been modified" }

def otherError : APIError :=
  { reason := StatusReason.Other, message := "connection refused" }

/-- The reliable keyed store: a read finds the object or reports NotFound; a create adds
the object unless its key is taken (AlreadyExists); an update replaces the object stored
under the same key (NotFound when there is none); a delete removes it (NotFound when
there is none). -/
def storeClient : Client Store :=
  { GetPod := fun s key =>
      match s.findPod key with
      | some p => (s, Except.ok p)
      | none => (s, Except.error notFoundError),
    GetNamespace := fun s key =>
      match s.findNamespace key.Name with
      | some n => (s, Except.ok n)
      | none => (s, Except.error notFoundError),
    Create := fun s obj =>
      match s.findPod obj.key with
      | some _ => (s, some alreadyExistsError)
      | none => ({ s with pods := s.pods ++ [obj] }, none),
    Update := fun s obj =>
      match s.findPod obj.key with
      | some _ =>
        ({ s with pods := s.pods.map (fun p => if p.key = obj.key then obj else p) }, none)
      | none => (s, some notFoundError),
    Delete := fun s obj =>
      match s.findPod obj.key with
      | some _ => ({ s with pods := s.pods.filter (fun p => decide (p.key ≠ obj.key)) }, none)
      | none => (s, some notFoundError) }

/-- Two reconciliation passes of the provisioning handler for the same target, the second
starting in the state the first one left. -/
def twoPasses {σ : Type} (sum : String → List Nat) (c : Client σ) (s : σ) (pod : Pod) :
    Run σ × Run σ :=
  let first := handlePodThatNeedsPolicy sum c s pod
  (first, handlePodThatNeedsPolicy sum c first.state pod)

/-! ## Concrete objects used to evaluate the reconciler -/

/-- A digest function for evaluation: the code points of the string written. -/
def sampleSum (s : String) : List Nat := s.toList.map Char.toNat

/-- A pod with the given identity, annotation map, node and phase. -/
def mkPod (name ns : String) (ann : GoMap) (node phase : String) : Pod :=
  { Pod.zero with
    ObjectMeta := { Name := name, Namespace := ns, Annotations := ann },
    Spec := { Pod.zero.Spec with NodeName := node },
    Status := { Phase := phase } }

/-- The target of the scenario of the specification: opted in by its own annotation. -/
def webPod : Pod :=
  mkPod "web-1" "app" (some [("generate-selinux-policy", "")]) "node-1" PodRunning

/-- A running target without any annotation map, opted in through its namespace. -/
def barePod : Pod := mkPod "web-1" "app" none "node-1" PodRunning

/-- A namespace that opts all its pods in. -/
def appNamespace : Namespace :=
  { ObjectMeta := { Name := "app", Namespace := "",
                    Annotations := some [("generate-selinux-policy", "")] } }

/-- The companion the factory builds for `webPod`, observed in a given phase. -/
def companionInPhase (phase : String) : Pod :=
  { newSelinuxPolicyMakerPod sampleSum "web-1" "app" "node-1" with Status := { Phase := phase } }

/-- A gateway on which a concurrent reconciler wins the race: the companion is not found,
and its creation is then rejected because it exists by now. -/
def racingScript : Script :=
  { getPod := fun _ => Except.error notFoundError,
    getNamespace := fun _ => Except.ok appNamespace,
    create := fun _ => some alreadyExistsError,
    update := fun _ => none,
    delete := fun _ => none }

/-- A gateway on which every object asked for is `obj` and every write fails with `err`. -/
def failingScript (obj : Pod) (err : APIError) : Script :=
  { getPod := fun _ => Except.ok obj,
    getNamespace := fun _ => Except.error err,
    create := fun _ => some err,
    update := fun _ => some err,
    delete := fun _ => some err }

/-- A store holding the target `webPod`, its namespace, and no companion yet. -/
def webStore : Store := { pods := [webPod], namespaces := [appNamespace] }

/-- A store holding the target `barePod`, its namespace, and no companion yet. -/
def bareStore : Store := { pods := [barePod], namespaces := [appNamespace] }

/-- The store a first pass leaves for `barePod`: the target, its namespace, and the
companion, now running. -/
def bareStoreProvisioned : Store :=
  { pods := [barePod, companionInPhase PodRunning], namespaces := [appNamespace] }

/-! ## Theorems

### The admission filter -/

/-- The two-valued map lookup of the code finds a key exactly when the object carries it. -/
theorem hasKey_eq_carries (om : ObjectMeta) (k : String) :
    om.Annotations.hasKey k = carries om k := by
  unfold GoMap.hasKey carries
  cases h : om.Annotations with
  | none => simp
  | some kvs =>
    rw [Bool.eq_iff_iff]
    simp only [List.any_eq_true, beq_iff_eq, Option.getD_some, decide_eq_true_eq, List.mem_map]

theorem isPolicyHelperPod_eq_carries (pod : Pod) :
    isPolicyHelperPod pod = carries pod.ObjectMeta "owned-by-selinux-policy-helper" := by
  rw [← hasKey_eq_carries]
  unfold isPolicyHelperPod
  cases h : pod.ObjectMeta.Annotations with
  | none => simp [GoMap.hasKey]
  | some kvs => simp

theorem shouldPodBeSkipped_eq_false_iff (pod : Pod) (ns : Namespace) :
    shouldPodBeSkipped pod ns = false ↔
      (carries pod.ObjectMeta "generate-selinux-policy" = true
        ∨ carries ns.ObjectMeta "generate-selinux-policy" = true)
      ∧ pod.Status.Phase = "Running"
      ∧ carries pod.ObjectMeta "selinux-policy" = false := by
  simp only [← hasKey_eq_carries]
  unfold shouldPodBeSkipped PodRunning
  cases h1 : pod.ObjectMeta.Annotations.hasKey "generate-selinux-policy" <;>
  cases h2 : ns.ObjectMeta.Annotations.hasKey "generate-selinux-policy" <;>
  cases h3 : pod.ObjectMeta.Annotations.hasKey "selinux-policy" <;>
  by_cases h4 : pod.Status.Phase = "Running" <;>
  simp [h4]

/-- C1. For every pod and namespace, the branch `Reconcile` takes (helper check, then skip
check) is the classification given by the ordered rules of the admission filter; it is
`IsCompanion` exactly when the pod carries the ownership marker; and `shouldPodBeSkipped`
is false exactly when the pod or the namespace carries `generate-selinux-policy`, the phase
is `Running` and the pod does not carry `selinux-policy`. -/
theorem C1_classification (pod : Pod) (ns : Namespace) :
    reconcileBranch pod ns = classifySpec pod ns
    ∧ (reconcileBranch pod ns = Classification.IsCompanion ↔
        carries pod.ObjectMeta "owned-by-selinux-policy-helper" = true)
    ∧ (shouldPodBeSkipped pod ns = false ↔
        (carries pod.ObjectMeta "generate-selinux-policy" = true
          ∨ carries ns.ObjectMeta "generate-selinux-policy" = true)
        ∧ pod.Status.Phase = "Running"
        ∧ carries pod.ObjectMeta "selinux-policy" = false) := by
  refine ⟨?_, ?_, shouldPodBeSkipped_eq_false_iff pod ns⟩
  · unfold reconcileBranch classifySpec
    rw [isPolicyHelperPod_eq_carries]
    unfold shouldPodBeSkipped PodRunning
    simp only [hasKey_eq_carries]
    cases carries pod.ObjectMeta "owned-by-selinux-policy-helper" <;>
    cases carries pod.ObjectMeta "generate-selinux-policy" <;>
    cases carries ns.ObjectMeta "generate-selinux-policy" <;>
    cases carries pod.ObjectMeta "selinux-policy" <;>
    by_cases h4 : pod.Status.Phase = "Running" <;>
    simp [h4]
  · unfold reconcileBranch
    rw [isPolicyHelperPod_eq_carries]
    cases carries pod.ObjectMeta "owned-by-selinux-policy-helper"
    · by_cases h : shouldPodBeSkipped pod ns = true <;> simp [h]
    · simp

/-- Once the pod and its namespace are fetched, `Reconcile` runs the handler of the branch
`reconcileBranch` names. -/
theorem Reconcile_follows_branch {σ : Type} (sum : String → List Nat) (c : Client σ)
    (s s1 s2 : σ) (request : NamespacedName) (pod : Pod) (ns : Namespace)
    (hpod : c.GetPod s request = (s1, Except.ok pod))
    (hns : c.GetNamespace s1 { Name := pod.ObjectMeta.Namespace, Namespace := "" }
      = (s2, Except.ok ns)) :
    Reconcile sum c s request =
      match reconcileBranch pod ns with
      | Classification.IsCompanion =>
        (handlePolicyHelperPod c s1 pod).after [Call.GetPod request]
      | Classification.Ignore =>
        { state := s2,
          calls := [Call.GetPod request,
            Call.GetNamespace { Name := pod.ObjectMeta.Namespace, Namespace := "" }],
          outcome := Outcome.returned none }
      | Classification.NeedsPolicy =>
        (handlePodThatNeedsPolicy sum c s2 pod).after
          [Call.GetPod request,
            Call.GetNamespace { Name := pod.ObjectMeta.Namespace, Namespace := "" }] := by
  unfold Reconcile reconcileBranch
  simp only [hpod]
  by_cases h1 : isPolicyHelperPod pod = true
  · simp [h1]
  · simp only [h1, hns]
    by_cases h2 : shouldPodBeSkipped pod ns = true <;> simp [h2]

/-! ### The identity deriver -/

/-- Distinct hexadecimal digits print as distinct characters. -/
theorem digitChar_inj : ∀ a < 16, ∀ b < 16, Nat.digitChar a = Nat.digitChar b → a = b := by
  decide

/-- Distinct bytes print as distinct pairs of digits. -/
theorem hexByte_inj (a b : Nat) (ha : a < 256) (hb : b < 256) (h : hexByte a = hexByte b) :
    a = b := by
  unfold hexByte at h
  simp only [List.cons.injEq, and_true] at h
  have h1 := digitChar_inj (a / 16 % 16) (Nat.mod_lt _ (by decide)) (b / 16 % 16)
    (Nat.mod_lt _ (by decide)) h.1
  have h2 := digitChar_inj (a % 16) (Nat.mod_lt _ (by decide)) (b % 16)
    (Nat.mod_lt _ (by decide)) h.2
  omega

/-- The hexadecimal print of a byte string determines the byte string. -/
theorem hexEncode_inj (xs ys : List Nat) (hx : ∀ b ∈ xs, b < 256) (hy : ∀ b ∈ ys, b < 256)
    (h : hexEncode xs = hexEncode ys) : xs = ys := by
  unfold hexEncode at h
  have h2 : xs.flatMap hexByte = ys.flatMap hexByte := congrArg String.data h
  clear h
  induction xs generalizing ys with
  | nil =>
    cases ys with
    | nil => rfl
    | cons y ys => simp [List.flatMap_cons, hexByte] at h2
  | cons x xs ih =>
    cases ys with
    | nil => simp [List.flatMap_cons, hexByte] at h2
    | cons y ys =>
      simp only [List.flatMap_cons, hexByte, List.cons_append, List.nil_append,
        List.cons.injEq] at h2
      have hxy : x = y :=
        hexByte_inj x y (hx x (by simp)) (hy y (by simp)) (by simp [hexByte, h2.1, h2.2.1])
      have hrest := ih ys (fun b hb => hx b (by simp [hb])) (fun b hb => hy b (by simp [hb]))
        h2.2.2
      rw [hxy, hrest]

/-- With a digest that is injective and returns bytes, two targets get the same companion
name exactly when they write the same string to the hasher. -/
theorem getSelinuxPodName_eq_iff (sum : String → List Nat) (hinj : Function.Injective sum)
    (hbytes : ∀ s, ∀ b ∈ sum s, b < 256) (n1 ns1 n2 ns2 : String) :
    getSelinuxPodName sum n1 ns1 = getSelinuxPodName sum n2 ns2
      ↔ n1 ++ "-" ++ ns1 = n2 ++ "-" ++ ns2 := by
  constructor
  · intro h
    unfold getSelinuxPodName at h
    have h2 : hexEncode (sum (n1 ++ "-" ++ ns1)) = hexEncode (sum (n2 ++ "-" ++ ns2)) := by
      have := congrArg String.data h
      simp only [String.data_append, List.append_cancel_left_eq] at this
      exact String.ext this
    exact hinj (hexEncode_inj _ _ (hbytes _) (hbytes _) h2)
  · intro h
    unfold getSelinuxPodName
    rw [h]

/-- C2. The companion names of the distinct targets `("a-b", "c")` and `("a", "b-c")`
coincide, whatever the digest function is (an injective one included): both targets write
the same string `a-b-c` to the hasher. -/
theorem C2_distinct_targets_share_name (sum : String → List Nat) :
    (("a-b", "c") : String × String) ≠ ("a", "b-c")
    ∧ getSelinuxPodName sum "a-b" "c" = getSelinuxPodName sum "a" "b-c" := by
  constructor
  · decide
  · rfl

/-! ### Provisioning: the companion is not found -/

/-- Provisioning when the companion is not found and its creation succeeds: one read, one
create, and the returned error is the NotFound error of the read. -/
theorem handlePodThatNeedsPolicy_created {σ : Type} (sum : String → List Nat) (c : Client σ)
    (s s1 s2 : σ) (pod : Pod) (err : APIError)
    (hget : c.GetPod s (selinuxPodNSName sum pod) = (s1, Except.error err))
    (hnf : IsNotFound (some err) = true)
    (hcreate : c.Create s1
      (newSelinuxPolicyMakerPod sum pod.ObjectMeta.Name pod.ObjectMeta.Namespace
        pod.Spec.NodeName) = (s2, none)) :
    handlePodThatNeedsPolicy sum c s pod =
      { state := s2,
        calls := [Call.GetPod (selinuxPodNSName sum pod),
          Call.Create (newSelinuxPolicyMakerPod sum pod.ObjectMeta.Name
            pod.ObjectMeta.Namespace pod.Spec.NodeName)],
        outcome := Outcome.returned (some err) } := by
  unfold handlePodThatNeedsPolicy
  simp [hget, hnf, hcreate]

/-- C3. On the store that holds the target `webPod` and no companion, the lookup of the
companion reports NotFound and the creation succeeds; the handler issues that one create
and no update, and returns the NotFound error of the lookup instead of a nil error. -/
theorem C3_created_returns_not_found :
    reconcileBranch webPod appNamespace = Classification.NeedsPolicy
    ∧ storeClient.GetPod webStore (selinuxPodNSName sampleSum webPod)
        = (webStore, Except.error notFoundError)
    ∧ (storeClient.Create webStore (newSelinuxPolicyMakerPod sampleSum "web-1" "app" "node-1")).2
        = none
    ∧ (handlePodThatNeedsPolicy sampleSum storeClient webStore webPod).calls
        = [Call.GetPod (selinuxPodNSName sampleSum webPod),
           Call.Create (newSelinuxPolicyMakerPod sampleSum "web-1" "app" "node-1")]
    ∧ (handlePodThatNeedsPolicy sampleSum storeClient webStore webPod).outcome
        = Outcome.returned (some notFoundError)
    ∧ (handlePodThatNeedsPolicy sampleSum storeClient webStore webPod).outcome
        ≠ Outcome.returned none := by
  refine ⟨by decide, by rfl, by rfl, by rfl, by rfl, by decide⟩

/-- C4 does not hold as stated: on a gateway where the lookup of the companion reports NotFound and
the creation is rejected with AlreadyExists, the handler does not return a nil error. -/
theorem C4_already_exists_not_success :
    reconcileBranch webPod appNamespace = Classification.NeedsPolicy
    ∧ (scriptedClient racingScript).GetPod () (selinuxPodNSName sampleSum webPod)
        = ((), Except.error notFoundError)
    ∧ IsNotFound (some notFoundError) = true
    ∧ (scriptedClient racingScript).Create ()
        (newSelinuxPolicyMakerPod sampleSum "web-1" "app" "node-1")
        = ((), some alreadyExistsError)
    ∧ IsAlreadyExists (some alreadyExistsError) = true
    ∧ (handlePodThatNeedsPolicy sampleSum (scriptedClient racingScript) () webPod).outcome
        ≠ Outcome.returned none := by
  refine ⟨by decide, by rfl, by rfl, by rfl, by rfl, by decide⟩

/-- C4, amended. When the lookup of the companion reports NotFound and the creation is
rejected (with AlreadyExists, or any other error), the handler returns exactly the error of
the creation; it has issued the lookup and that one create, and no update. -/
theorem C4_create_error_is_returned {σ : Type} (sum : String → List Nat) (c : Client σ)
    (s s1 s2 : σ) (pod : Pod) (err cerr : APIError)
    (hget : c.GetPod s (selinuxPodNSName sum pod) = (s1, Except.error err))
    (hnf : IsNotFound (some err) = true)
    (hcreate : c.Create s1
      (newSelinuxPolicyMakerPod sum pod.ObjectMeta.Name pod.ObjectMeta.Namespace
        pod.Spec.NodeName) = (s2, some cerr)) :
    (handlePodThatNeedsPolicy sum c s pod).outcome = Outcome.returned (some cerr)
    ∧ (handlePodThatNeedsPolicy sum c s pod).calls
        = [Call.GetPod (selinuxPodNSName sum pod),
           Call.Create (newSelinuxPolicyMakerPod sum pod.ObjectMeta.Name
             pod.ObjectMeta.Namespace pod.Spec.NodeName)]
    ∧ (handlePodThatNeedsPolicy sum c s pod).state = s2 := by
  unfold handlePodThatNeedsPolicy
  simp [hget, hnf, hcreate]

/-- C4, amended, on the racing gateway: the AlreadyExists error is what the handler
returns. -/
theorem C4_create_error_is_returned_witness :
    (handlePodThatNeedsPolicy sampleSum (scriptedClient racingScript) () webPod).outcome
        = Outcome.returned (some alreadyExistsError)
    ∧ (handlePodThatNeedsPolicy sampleSum (scriptedClient racingScript) () webPod).calls
        = [Call.GetPod (selinuxPodNSName sampleSum webPod),
           Call.Create (newSelinuxPolicyMakerPod sampleSum webPod.ObjectMeta.Name
             webPod.ObjectMeta.Namespace webPod.Spec.NodeName)]
    ∧ (handlePodThatNeedsPolicy sampleSum (scriptedClient racingScript) () webPod).state = () :=
  C4_create_error_is_returned sampleSum (scriptedClient racingScript) () () () webPod
    notFoundError alreadyExistsError rfl rfl rfl

/-! ### Provisioning: two passes, and the annotate step -/

/-- Reading a key just assigned yields the value assigned. -/
theorem lookup_setEntry_same (kvs : List (String × String)) (k v : String) :
    GoMap.lookup (some (setEntry kvs k v)) k = some v := by
  induction kvs with
  | nil => simp [setEntry, GoMap.lookup]
  | cons kv rest ih =>
    unfold setEntry
    by_cases h : kv.1 = k
    · simp [h, GoMap.lookup]
    · simp only [GoMap.lookup] at ih ⊢
      simp [h, List.find?_cons, ih]

/-- An assignment leaves every other key as it was. -/
theorem lookup_setEntry_other (kvs : List (String × String)) (k v j : String) (hj : j ≠ k) :
    GoMap.lookup (some (setEntry kvs k v)) j = GoMap.lookup (some kvs) j := by
  induction kvs with
  | nil => simp [setEntry, GoMap.lookup, List.find?_cons, Ne.symm hj]
  | cons kv rest ih =>
    unfold setEntry
    by_cases h : kv.1 = k
    · simp [h, GoMap.lookup, List.find?_cons, Ne.symm hj]
    · simp only [GoMap.lookup] at ih ⊢
      rw [if_neg (by simpa using h)]
      by_cases h2 : kv.1 = j
      · simp [h2, List.find?_cons]
      · simp [h2, List.find?_cons, ih]

/-- The identity of the companion the factory builds is the derived identity. -/
theorem newSelinuxPolicyMakerPod_key (sum : String → List Nat) (pod : Pod) :
    (newSelinuxPolicyMakerPod sum pod.ObjectMeta.Name pod.ObjectMeta.Namespace
      pod.Spec.NodeName).key = selinuxPodNSName sum pod := rfl

/-- Idempotent provisioning on the reliable store, for a target whose annotation map is not
nil: two passes issue one create (in the first) and one update (in the second), the second
pass returns a nil error, and the final store holds one pod at the derived identity. -/
theorem twoPasses_store_provisions_once (sum : String → List Nat) (s : Store) (pod : Pod)
    (kvs : List (String × String))
    (hmem : pod ∈ s.pods)
    (hann : pod.ObjectMeta.Annotations = some kvs)
    (hfresh : s.findPod (selinuxPodNSName sum pod) = none) :
    (twoPasses sum storeClient s pod).1.calls.countP Call.isCreate = 1
    ∧ (twoPasses sum storeClient s pod).2.calls.countP Call.isCreate = 0
    ∧ (twoPasses sum storeClient s pod).1.calls.countP Call.isUpdate = 0
    ∧ (twoPasses sum storeClient s pod).2.calls.countP Call.isUpdate = 1
    ∧ (twoPasses sum storeClient s pod).2.outcome = Outcome.returned none
    ∧ (twoPasses sum storeClient s pod).2.state.pods.countP
        (fun p => decide (p.key = selinuxPodNSName sum pod)) = 1 := by
  have hfresh2 := hfresh
  unfold Store.findPod at hfresh2
  have hfirst : handlePodThatNeedsPolicy sum storeClient s pod =
      { state := { s with pods := s.pods ++
          [newSelinuxPolicyMakerPod sum pod.ObjectMeta.Name pod.ObjectMeta.Namespace
            pod.Spec.NodeName] },
        calls := [Call.GetPod (selinuxPodNSName sum pod),
          Call.Create (newSelinuxPolicyMakerPod sum pod.ObjectMeta.Name
            pod.ObjectMeta.Namespace pod.Spec.NodeName)],
        outcome := Outcome.returned (some notFoundError) } := by
    exact handlePodThatNeedsPolicy_created sum storeClient s s _ pod notFoundError
      (by simp [storeClient, hfresh]) rfl
      (by simp [storeClient, newSelinuxPolicyMakerPod_key, hfresh])
  have hfound : Store.findPod { s with pods := s.pods ++
      [newSelinuxPolicyMakerPod sum pod.ObjectMeta.Name pod.ObjectMeta.Namespace
        pod.Spec.NodeName] } (selinuxPodNSName sum pod)
      = some (newSelinuxPolicyMakerPod sum pod.ObjectMeta.Name pod.ObjectMeta.Namespace
        pod.Spec.NodeName) := by
    simp [Store.findPod, List.find?_append, hfresh2, newSelinuxPolicyMakerPod_key]
  have htarget : ∃ p, Store.findPod { s with pods := s.pods ++
      [newSelinuxPolicyMakerPod sum pod.ObjectMeta.Name pod.ObjectMeta.Namespace
        pod.Spec.NodeName] } pod.key = some p := by
    rw [← Option.isSome_iff_exists]
    simp only [Store.findPod, List.find?_isSome]
    exact ⟨pod, by simp [hmem], by simp⟩
  obtain ⟨p0, hp0⟩ := htarget
  have hzero : s.pods.countP (fun p => decide (p.key = selinuxPodNSName sum pod)) = 0 := by
    rw [List.countP_eq_zero]
    intro p hp
    have := List.find?_eq_none.mp hfresh2 p hp
    simpa using this
  simp only [twoPasses, hfirst]
  unfold handlePodThatNeedsPolicy
  simp only [storeClient, hfound, Pod.DeepCopy, hann]
  have hkey : ∀ kvs2 : List (String × String),
      Pod.key { pod with ObjectMeta := { pod.ObjectMeta with Annotations := some kvs2 } }
        = pod.key := fun _ => rfl
  simp only [hkey, hp0]
  have hcomp : ((fun p : Pod => decide (p.key = selinuxPodNSName sum pod)) ∘ fun p : Pod =>
      if p.key = pod.key then
        ({ pod with
           ObjectMeta :=
             { pod.ObjectMeta with
               Annotations :=
                 some (setEntry kvs "selinux-policy" (selinuxPodNSName sum pod).String) } } : Pod)
      else p) = fun p : Pod => decide (p.key = selinuxPodNSName sum pod) := by
    funext p
    by_cases h : p.key = pod.key
    · simp only [Function.comp, h, if_true, hkey]
    · simp only [Function.comp, h, if_false]
  refine ⟨?_, ?_, ?_, ?_, ?_, ?_⟩
  · simp [Call.isCreate]
  · simp [Call.isCreate]
  · simp [Call.isUpdate]
  · simp [Call.isUpdate]
  · trivial
  · rw [List.countP_map, hcomp, List.countP_append, hzero]
    simp [newSelinuxPolicyMakerPod_key]
/-- C5. On the reliable store that holds the running target `barePod` (no annotation map,
opted in through its namespace) and no pod at the derived identity, the first pass issues
the one create, and the second pass panics on the assignment into the nil map: the two
passes issue no update at all. -/
theorem C5_second_pass_panics_on_nil_map :
    reconcileBranch barePod appNamespace = Classification.NeedsPolicy
    ∧ barePod ∈ bareStore.pods
    ∧ bareStore.findPod (selinuxPodNSName sampleSum barePod) = none
    ∧ ((twoPasses sampleSum storeClient bareStore barePod).1.calls
        ++ (twoPasses sampleSum storeClient bareStore barePod).2.calls).countP Call.isCreate = 1
    ∧ ((twoPasses sampleSum storeClient bareStore barePod).1.calls
        ++ (twoPasses sampleSum storeClient bareStore barePod).2.calls).countP Call.isUpdate = 0
    ∧ (twoPasses sampleSum storeClient bareStore barePod).2.outcome
        = Outcome.panicked "assignment to entry in nil map" := by
  refine ⟨by decide, by decide, by rfl, by rfl, by rfl, by rfl⟩

/-- C6. For a target with a non-nil annotation map whose companion is found, the handler
issues the lookup and exactly one update, and no create; the object updated has the
annotation `selinux-policy` set to the operator namespace, `/`, and the companion name,
every other annotation and every other field being those of the target; the handler ends in
the state the update leaves and returns the error of the update (nil on success). -/
theorem C6_annotate_step {σ : Type} (sum : String → List Nat) (c : Client σ) (s s1 : σ)
    (pod companion : Pod) (kvs : List (String × String))
    (hann : pod.ObjectMeta.Annotations = some kvs)
    (hget : c.GetPod s (selinuxPodNSName sum pod) = (s1, Except.ok companion)) :
    ∃ updated : Pod,
      (handlePodThatNeedsPolicy sum c s pod).calls
        = [Call.GetPod (selinuxPodNSName sum pod), Call.Update updated]
      ∧ (handlePodThatNeedsPolicy sum c s pod).calls.countP Call.isCreate = 0
      ∧ (handlePodThatNeedsPolicy sum c s pod).outcome
          = Outcome.returned (c.Update s1 updated).2
      ∧ (handlePodThatNeedsPolicy sum c s pod).state = (c.Update s1 updated).1
      ∧ updated.ObjectMeta.Annotations.lookup "selinux-policy"
          = some (operatorNamespace ++ "/"
              ++ getSelinuxPodName sum pod.ObjectMeta.Name pod.ObjectMeta.Namespace)
      ∧ (∀ k : String, k ≠ "selinux-policy" →
          updated.ObjectMeta.Annotations.lookup k = pod.ObjectMeta.Annotations.lookup k)
      ∧ updated.ObjectMeta.Annotations ≠ none
      ∧ updated.ObjectMeta.Name = pod.ObjectMeta.Name
      ∧ updated.ObjectMeta.Namespace = pod.ObjectMeta.Namespace
      ∧ updated.TypeMeta = pod.TypeMeta
      ∧ updated.Spec = pod.Spec
      ∧ updated.Status = pod.Status := by
  refine ⟨{ pod with
            ObjectMeta :=
              { pod.ObjectMeta with
                Annotations :=
                  some (setEntry kvs "selinux-policy" (selinuxPodNSName sum pod).String) } },
    ?_, ?_, ?_, ?_, ?_, ?_, ?_, rfl, rfl, rfl, rfl, rfl⟩
  · unfold handlePodThatNeedsPolicy
    simp only [hget, Pod.DeepCopy, hann]
    split <;> rfl
  · unfold handlePodThatNeedsPolicy
    simp only [hget, Pod.DeepCopy, hann]
    split <;> simp [Call.isCreate]
  · unfold handlePodThatNeedsPolicy
    simp only [hget, Pod.DeepCopy, hann]
    split <;> simp_all
  · unfold handlePodThatNeedsPolicy
    simp only [hget, Pod.DeepCopy, hann]
    split <;> simp_all
  · exact lookup_setEntry_same kvs _ _
  · intro k hk
    rw [hann]
    exact lookup_setEntry_other kvs _ _ k hk
  · simp

/-- C6 on a gateway where the companion is found and the update is rejected with a
conflict: that conflict is what the handler returns. -/
theorem C6_annotate_step_witness :
    ∃ updated : Pod,
      (handlePodThatNeedsPolicy sampleSum
          (scriptedClient (failingScript (companionInPhase PodRunning) conflictError)) ()
          webPod).calls
        = [Call.GetPod (selinuxPodNSName sampleSum webPod), Call.Update updated]
      ∧ (handlePodThatNeedsPolicy sampleSum
          (scriptedClient (failingScript (companionInPhase PodRunning) conflictError)) ()
          webPod).calls.countP Call.isCreate = 0
      ∧ (handlePodThatNeedsPolicy sampleSum
          (scriptedClient (failingScript (companionInPhase PodRunning) conflictError)) ()
          webPod).outcome
          = Outcome.returned
              ((scriptedClient (failingScript (companionInPhase PodRunning)
                conflictError)).Update () updated).2
      ∧ (handlePodThatNeedsPolicy sampleSum
          (scriptedClient (failingScript (companionInPhase PodRunning) conflictError)) ()
          webPod).state
          = ((scriptedClient (failingScript (companionInPhase PodRunning)
                conflictError)).Update () updated).1
      ∧ updated.ObjectMeta.Annotations.lookup "selinux-policy"
          = some (operatorNamespace ++ "/"
              ++ getSelinuxPodName sampleSum webPod.ObjectMeta.Name
                  webPod.ObjectMeta.Namespace)
      ∧ (∀ k : String, k ≠ "selinux-policy" →
          updated.ObjectMeta.Annotations.lookup k = webPod.ObjectMeta.Annotations.lookup k)
      ∧ updated.ObjectMeta.Annotations ≠ none
      ∧ updated.ObjectMeta.Name = webPod.ObjectMeta.Name
      ∧ updated.ObjectMeta.Namespace = webPod.ObjectMeta.Namespace
      ∧ updated.TypeMeta = webPod.TypeMeta
      ∧ updated.Spec = webPod.Spec
      ∧ updated.Status = webPod.Status :=
  C6_annotate_step sampleSum
    (scriptedClient (failingScript (companionInPhase PodRunning) conflictError)) () ()
    webPod (companionInPhase PodRunning) [("generate-selinux-policy", "")] rfl rfl

/-! ### The companion lifecycle -/

/-- C7. The companion handler issues a delete of the pod exactly when its phase is
`Succeeded`, and never any other call; it returns an error exactly when that delete fails
with an error that is not NotFound, and then returns that error; in every other phase,
`Failed` included, it issues no call, leaves the state alone and returns a nil error. -/
theorem C7_companion_lifecycle {σ : Type} (c : Client σ) (s : σ) (pod : Pod) :
    (Call.Delete pod ∈ (handlePolicyHelperPod c s pod).calls ↔ pod.Status.Phase = "Succeeded")
    ∧ (∀ call ∈ (handlePolicyHelperPod c s pod).calls, call = Call.Delete pod)
    ∧ (∀ err : APIError,
        (handlePolicyHelperPod c s pod).outcome = Outcome.returned (some err) ↔
          pod.Status.Phase = "Succeeded" ∧ (c.Delete s pod).2 = some err
            ∧ IsNotFound (some err) = false)
    ∧ (∃ err : Option APIError, (handlePolicyHelperPod c s pod).outcome = Outcome.returned err)
    ∧ (pod.Status.Phase = "Succeeded" →
        (handlePolicyHelperPod c s pod).calls = [Call.Delete pod]
        ∧ (handlePolicyHelperPod c s pod).state = (c.Delete s pod).1
        ∧ (handlePolicyHelperPod c s pod).outcome
            = Outcome.returned (ignoreNotFound (c.Delete s pod).2))
    ∧ (pod.Status.Phase ≠ "Succeeded" →
        (handlePolicyHelperPod c s pod).calls = []
        ∧ (handlePolicyHelperPod c s pod).state = s
        ∧ (handlePolicyHelperPod c s pod).outcome = Outcome.returned none) := by
  unfold handlePolicyHelperPod PodSucceeded PodFailed
  by_cases h : pod.Status.Phase = "Succeeded"
  · simp only [h, if_true]
    rcases hd : c.Delete s pod with ⟨s1, _ | e⟩
    · simp [ignoreNotFound, IsNotFound]
    · by_cases hnf : IsNotFound (some e) = true
      · simp [ignoreNotFound, hnf]
      · simp [ignoreNotFound, hnf]
  · simp only [h, if_false]
    split <;> simp

/-- C7 on the reliable store holding a companion observed in phase `Succeeded`: the one call
is the delete of that companion, the store is left without it, and the error is nil. -/
theorem C7_companion_lifecycle_witness :
    (companionInPhase PodSucceeded).Status.Phase = "Succeeded"
    ∧ (handlePolicyHelperPod storeClient
        { pods := [companionInPhase PodSucceeded], namespaces := [] }
        (companionInPhase PodSucceeded)).calls = [Call.Delete (companionInPhase PodSucceeded)]
    ∧ (handlePolicyHelperPod storeClient
        { pods := [companionInPhase PodSucceeded], namespaces := [] }
        (companionInPhase PodSucceeded)).state
        = (storeClient.Delete { pods := [companionInPhase PodSucceeded], namespaces := [] }
            (companionInPhase PodSucceeded)).1
    ∧ (handlePolicyHelperPod storeClient
        { pods := [companionInPhase PodSucceeded], namespaces := [] }
        (companionInPhase PodSucceeded)).outcome
        = Outcome.returned (ignoreNotFound
            (storeClient.Delete { pods := [companionInPhase PodSucceeded], namespaces := [] }
              (companionInPhase PodSucceeded)).2) :=
  ⟨rfl, (C7_companion_lifecycle storeClient
      { pods := [companionInPhase PodSucceeded], namespaces := [] }
      (companionInPhase PodSucceeded)).2.2.2.2.1 rfl⟩

/-! ### Failed lookups in `Reconcile` -/

/-- C8. When the lookup of the requested pod fails, `Reconcile` issues no call besides that
lookup, ends in the state the lookup left, and returns a nil error if the failure is
NotFound and exactly the error of the lookup otherwise. -/
theorem C8_target_get_fails {σ : Type} (sum : String → List Nat) (c : Client σ) (s s1 : σ)
    (request : NamespacedName) (err : APIError)
    (hget : c.GetPod s request = (s1, Except.error err)) :
    (Reconcile sum c s request).calls = [Call.GetPod request]
    ∧ (Reconcile sum c s request).state = s1
    ∧ (IsNotFound (some err) = true →
        (Reconcile sum c s request).outcome = Outcome.returned none)
    ∧ (IsNotFound (some err) = false →
        (Reconcile sum c s request).outcome = Outcome.returned (some err)) := by
  unfold Reconcile
  simp only [hget]
  refine ⟨trivial, trivial, ?_, ?_⟩
  · intro h; simp [ignoreNotFound, h]
  · intro h; simp [ignoreNotFound, h]

/-- C8 on the empty reliable store: the requested pod is not found, and reconciling it is a
success with no further call. -/
theorem C8_target_get_fails_witness :
    storeClient.GetPod { pods := [], namespaces := [] } webPod.key
      = ({ pods := [], namespaces := [] }, Except.error notFoundError)
    ∧ (Reconcile sampleSum storeClient { pods := [], namespaces := [] } webPod.key).calls
        = [Call.GetPod webPod.key]
    ∧ (Reconcile sampleSum storeClient { pods := [], namespaces := [] } webPod.key).outcome
        = Outcome.returned none :=
  ⟨rfl,
   (C8_target_get_fails sampleSum storeClient { pods := [], namespaces := [] }
      { pods := [], namespaces := [] } webPod.key notFoundError rfl).1,
   (C8_target_get_fails sampleSum storeClient { pods := [], namespaces := [] }
      { pods := [], namespaces := [] } webPod.key notFoundError rfl).2.2.1 rfl⟩

/-- C9. For a fetched pod that is not a companion, when the lookup of its namespace fails,
`Reconcile` has issued the two lookups and no write, whatever the annotations and phase of
the pod; it returns a nil error if the failure is NotFound and exactly the error of the
lookup otherwise. -/
theorem C9_namespace_get_fails {σ : Type} (sum : String → List Nat) (c : Client σ)
    (s s1 s2 : σ) (request : NamespacedName) (pod : Pod) (err : APIError)
    (hpod : c.GetPod s request = (s1, Except.ok pod))
    (hnot : carries pod.ObjectMeta "owned-by-selinux-policy-helper" = false)
    (hns : c.GetNamespace s1 { Name := pod.ObjectMeta.Namespace, Namespace := "" }
      = (s2, Except.error err)) :
    (Reconcile sum c s request).calls
      = [Call.GetPod request,
         Call.GetNamespace { Name := pod.ObjectMeta.Namespace, Namespace := "" }]
    ∧ (∀ call ∈ (Reconcile sum c s request).calls, call.isWrite = false)
    ∧ (Reconcile sum c s request).state = s2
    ∧ (IsNotFound (some err) = true →
        (Reconcile sum c s request).outcome = Outcome.returned none)
    ∧ (IsNotFound (some err) = false →
        (Reconcile sum c s request).outcome = Outcome.returned (some err)) := by
  rw [← isPolicyHelperPod_eq_carries] at hnot
  unfold Reconcile
  simp only [hpod, hnot, hns]
  refine ⟨by simp, by simp [Call.isWrite], by simp, ?_, ?_⟩
  · intro h; simp [ignoreNotFound, h]
  · intro h; simp [ignoreNotFound, h]

/-- C9 on the reliable store that holds the running, opted-in `webPod` but not its
namespace: the pod is ignored, with a nil error and no write. -/
theorem C9_namespace_get_fails_witness :
    carries webPod.ObjectMeta "generate-selinux-policy" = true
    ∧ webPod.Status.Phase = "Running"
    ∧ (Reconcile sampleSum storeClient { pods := [webPod], namespaces := [] } webPod.key).calls
        = [Call.GetPod webPod.key,
           Call.GetNamespace { Name := webPod.ObjectMeta.Namespace, Namespace := "" }]
    ∧ (∀ call ∈ (Reconcile sampleSum storeClient { pods := [webPod], namespaces := [] }
          webPod.key).calls, call.isWrite = false)
    ∧ (Reconcile sampleSum storeClient { pods := [webPod], namespaces := [] } webPod.key).outcome
        = Outcome.returned none :=
  ⟨by decide, rfl,
   (C9_namespace_get_fails sampleSum storeClient { pods := [webPod], namespaces := [] }
      { pods := [webPod], namespaces := [] } { pods := [webPod], namespaces := [] }
      webPod.key webPod notFoundError rfl (by decide) rfl).1,
   (C9_namespace_get_fails sampleSum storeClient { pods := [webPod], namespaces := [] }
      { pods := [webPod], namespaces := [] } { pods := [webPod], namespaces := [] }
      webPod.key webPod notFoundError rfl (by decide) rfl).2.1,
   (C9_namespace_get_fails sampleSum storeClient { pods := [webPod], namespaces := [] }
      { pods := [webPod], namespaces := [] } { pods := [webPod], namespaces := [] }
      webPod.key webPod notFoundError rfl (by decide) rfl).2.2.2.1 rfl⟩

/-! ### The companion factory -/

/-- C10. The pod the factory builds has the derived name, the operator namespace, the node
of the target, restart policy `Never` and the single annotation
`owned-by-selinux-policy-helper` with an empty value; it is a policy helper pod, and so is
any fetched pod with this metadata, whatever its status: reconciling it runs the companion
handler and nothing else. -/
theorem C10_factory (sum : String → List Nat)
    (targetPodName targetPodNamespace targetNodeName : String) :
    (newSelinuxPolicyMakerPod sum targetPodName targetPodNamespace targetNodeName).ObjectMeta.Name
      = getSelinuxPodName sum targetPodName targetPodNamespace
    ∧ (newSelinuxPolicyMakerPod sum targetPodName targetPodNamespace
        targetNodeName).ObjectMeta.Namespace = operatorNamespace
    ∧ (newSelinuxPolicyMakerPod sum targetPodName targetPodNamespace
        targetNodeName).Spec.NodeName = targetNodeName
    ∧ (newSelinuxPolicyMakerPod sum targetPodName targetPodNamespace
        targetNodeName).Spec.RestartPolicy = "Never"
    ∧ (newSelinuxPolicyMakerPod sum targetPodName targetPodNamespace
        targetNodeName).ObjectMeta.Annotations = some [("owned-by-selinux-policy-helper", "")]
    ∧ isPolicyHelperPod
        (newSelinuxPolicyMakerPod sum targetPodName targetPodNamespace targetNodeName) = true
    ∧ (∀ ns : Namespace,
        reconcileBranch
          (newSelinuxPolicyMakerPod sum targetPodName targetPodNamespace targetNodeName) ns
          = Classification.IsCompanion)
    ∧ (∀ (σ : Type) (c : Client σ) (s s1 : σ) (request : NamespacedName) (fetched : Pod),
        c.GetPod s request = (s1, Except.ok fetched) →
        fetched.ObjectMeta
          = (newSelinuxPolicyMakerPod sum targetPodName targetPodNamespace
              targetNodeName).ObjectMeta →
        Reconcile sum c s request
          = (handlePolicyHelperPod c s1 fetched).after [Call.GetPod request]) := by
  have hhelper : isPolicyHelperPod
      (newSelinuxPolicyMakerPod sum targetPodName targetPodNamespace targetNodeName) = true := by
    simp [isPolicyHelperPod, newSelinuxPolicyMakerPod, GoMap.hasKey]
  refine ⟨rfl, rfl, rfl, rfl, rfl, hhelper, ?_, ?_⟩
  · intro ns
    simp [reconcileBranch, hhelper]
  · intro σ c s s1 request fetched hget hmeta
    have hf : isPolicyHelperPod fetched = true := by
      unfold isPolicyHelperPod at hhelper ⊢
      rw [hmeta]
      exact hhelper
    unfold Reconcile
    simp [hget, hf]

/-- C10 on the reliable store holding the companion of `webPod` in phase `Running`:
reconciling it is a run of the companion handler. -/
theorem C10_factory_witness :
    Reconcile sampleSum storeClient { pods := [companionInPhase PodRunning], namespaces := [] }
        (companionInPhase PodRunning).key
      = (handlePolicyHelperPod storeClient
          { pods := [companionInPhase PodRunning], namespaces := [] }
          (companionInPhase PodRunning)).after [Call.GetPod (companionInPhase PodRunning).key] :=
  (C10_factory sampleSum "web-1" "app" "node-1").2.2.2.2.2.2.2 Store storeClient
    { pods := [companionInPhase PodRunning], namespaces := [] }
    { pods := [companionInPhase PodRunning], namespaces := [] }
    (companionInPhase PodRunning).key (companionInPhase PodRunning) rfl rfl

/-! ### The annotate step on a nil annotation map -/

/-- The annotate step for a target whose annotation map is nil: once the companion is found,
the handler panics on the assignment of line 157, having issued the lookup and no update. -/
theorem handlePodThatNeedsPolicy_nil_map {σ : Type} (sum : String → List Nat) (c : Client σ)
    (s s1 : σ) (pod companion : Pod)
    (hann : pod.ObjectMeta.Annotations = none)
    (hget : c.GetPod s (selinuxPodNSName sum pod) = (s1, Except.ok companion)) :
    handlePodThatNeedsPolicy sum c s pod =
      { state := s1,
        calls := [Call.GetPod (selinuxPodNSName sum pod)],
        outcome := Outcome.panicked "assignment to entry in nil map" } := by
  unfold handlePodThatNeedsPolicy
  simp only [hget, Pod.DeepCopy, hann]

/-- C11. The running pod `barePod` has no annotation map and is opted in through its
namespace only, so the admission filter does not skip it; with its companion in the store,
the annotate step panics on the assignment into the nil map and issues no update, both when
the handler is called directly and when `Reconcile` reaches it. -/
theorem C11_annotate_step_panics_on_nil_map :
    barePod.ObjectMeta.Annotations = none
    ∧ barePod.Status.Phase = "Running"
    ∧ appNamespace.ObjectMeta.Annotations.hasKey "generate-selinux-policy" = true
    ∧ isPolicyHelperPod barePod = false
    ∧ shouldPodBeSkipped barePod appNamespace = false
    ∧ storeClient.GetPod bareStoreProvisioned (selinuxPodNSName sampleSum barePod)
        = (bareStoreProvisioned, Except.ok (companionInPhase PodRunning))
    ∧ (handlePodThatNeedsPolicy sampleSum storeClient bareStoreProvisioned barePod).outcome
        = Outcome.panicked "assignment to entry in nil map"
    ∧ (handlePodThatNeedsPolicy sampleSum storeClient bareStoreProvisioned barePod).calls
        = [Call.GetPod (selinuxPodNSName sampleSum barePod)]
    ∧ (Reconcile sampleSum storeClient bareStoreProvisioned barePod.key).outcome
        = Outcome.panicked "assignment to entry in nil map"
    ∧ (Reconcile sampleSum storeClient bareStoreProvisioned barePod.key).calls.countP
        Call.isUpdate = 0
    ∧ (Reconcile sampleSum storeClient bareStoreProvisioned barePod.key).state
        = bareStoreProvisioned := by
  refine ⟨rfl, rfl, by decide, by decide, by decide, by rfl, by rfl, by rfl, by rfl, by rfl,
    by rfl⟩

end SelinuxPolicyHelper
